import Mathlib

/-!
Verification development for the Second-Handed trade server.

The Python sources under `server/` are shallowly embedded as executable Lean
definitions: pure helpers become Lean functions, the MySQL tables and Redis
keys become explicit state values (lists), fallible code returns
`Except String`.  Machine-level library routines are embedded as follows:

* SHA-256 (`hashlib.sha256(...).hexdigest()`) is implemented bit-for-bit
  (FIPS 180-4) on byte lists, with `Nat` arithmetic reduced mod 2^32,
  so digests of concrete strings evaluate inside the kernel.
* `json.dumps` is embedded by `pyDumps` over the value type `PyVal`,
  covering exactly the configurations the sources use
  (`sort_keys`, `separators`, `ensure_ascii`, default `allow_nan=True`).
* Python strings/ints are Lean `String`/`Int`; `str`-conversion and
  code-point comparison of strings agree between the two languages.

Every definition is translated from the repository's sources, except the
trade-snapshot persistence layer (`server/infrastructure/db/trades.py`),
which is not part of the repository files available here; those primitives
are modelled from the specification's §6 collaborator contract and are
marked `Modelled from the spec:` in their doc comments.
-/

/-! ## SHA-256 (hashlib), bit-for-bit on byte lists -/

namespace Sha256

def M32 : Nat := 4294967296

def add32 (a b : Nat) : Nat := (a + b) % M32

def rotr (n x : Nat) : Nat := ((x >>> n) ||| (x <<< (32 - n))) % M32

def shr (n x : Nat) : Nat := x >>> n

def xor3 (a b c : Nat) : Nat := (a ^^^ b) ^^^ c

def bsig0 (x : Nat) : Nat := xor3 (rotr 2 x) (rotr 13 x) (rotr 22 x)

def bsig1 (x : Nat) : Nat := xor3 (rotr 6 x) (rotr 11 x) (rotr 25 x)

def ssig0 (x : Nat) : Nat := xor3 (rotr 7 x) (rotr 18 x) (shr 3 x)

def ssig1 (x : Nat) : Nat := xor3 (rotr 17 x) (rotr 19 x) (shr 10 x)

def chF (x y z : Nat) : Nat := (x &&& y) ^^^ ((x ^^^ (M32 - 1)) &&& z)

def majF (x y z : Nat) : Nat := ((x &&& y) ^^^ (x &&& z)) ^^^ (y &&& z)

/-- The 64 round constants of FIPS 180-4 (decimal). -/
def K : List Nat :=
  [1116352408, 1899447441, 3049323471, 3921009573, 961987163, 1508970993,
   2453635748, 2870763221, 3624381080, 310598401, 607225278, 1426881987,
   1925078388, 2162078206, 2614888103, 3248222580, 3835390401, 4022224774,
   264347078, 604807628, 770255983, 1249150122, 1555081692, 1996064986,
   2554220882, 2821834349, 2952996808, 3210313671, 3336571891, 3584528711,
   113926993, 338241895, 666307205, 773529912, 1294757372, 1396182291,
   1695183700, 1986661051, 2177026350, 2456956037, 2730485921, 2820302411,
   3259730800, 3345764771, 3516065817, 3600352804, 4094571909, 275423344,
   430227734, 506948616, 659060556, 883997877, 958139571, 1322822218,
   1537002063, 1747873779, 1955562222, 2024104815, 2227730452, 2361852424,
   2428436474, 2756734187, 3204031479, 3329325298]

/-- The eight initial hash words of FIPS 180-4 (decimal). -/
def H0 : List Nat :=
  [1779033703, 3144134277, 1013904242, 2773480762,
   1359893119, 2600822924, 528734635, 1541459225]

/-- Split a padded message into 32-bit big-endian words. -/
def toWords : List Nat → List Nat
  | b0 :: b1 :: b2 :: b3 :: rest => (((b0 * 256 + b1) * 256 + b2) * 256 + b3) :: toWords rest
  | _ => []

/-- Message schedule: extend 16 words to 64. `ws` is the reversed word list so far. -/
def extendWords : Nat → List Nat → List Nat
  | 0, ws => ws.reverse
  | n + 1, ws =>
      let w2 := ws.getD 1 0
      let w7 := ws.getD 6 0
      let w15 := ws.getD 14 0
      let w16 := ws.getD 15 0
      extendWords n (add32 (add32 (ssig1 w2) w7) (add32 (ssig0 w15) w16) :: ws)

def schedule (block : List Nat) : List Nat :=
  extendWords 48 (toWords block).reverse

def round1 (st : List Nat) (kw : Nat × Nat) : List Nat :=
  match st with
  | [a, b, c, d, e, f, g, h] =>
      let t1 := add32 (add32 (add32 h (bsig1 e)) (add32 (chF e f g) kw.1)) kw.2
      let t2 := add32 (bsig0 a) (majF a b c)
      [add32 t1 t2, a, b, c, add32 d t1, e, f, g]
  | st => st

def compress (h : List Nat) (block : List Nat) : List Nat :=
  let ws := schedule block
  let st := (K.zip ws).foldl round1 h
  (h.zip st).map fun p => add32 p.1 p.2

def chunksAux : Nat → List Nat → List (List Nat)
  | 0, _ => []
  | _, [] => []
  | fuel + 1, a :: t => ((a :: t).take 64) :: chunksAux fuel (t.drop 63)

def chunks (l : List Nat) : List (List Nat) := chunksAux l.length l

def pad (msg : List Nat) : List Nat :=
  let len := msg.length
  let zeros := (55 + 64 - len % 64) % 64
  let lenBits := len * 8
  msg ++ [0x80] ++ List.replicate zeros 0 ++
    [lenBits >>> 56 % 256, lenBits >>> 48 % 256, lenBits >>> 40 % 256, lenBits >>> 32 % 256,
     lenBits >>> 24 % 256, lenBits >>> 16 % 256, lenBits >>> 8 % 256, lenBits % 256]

def digestWords (msg : List Nat) : List Nat :=
  (chunks (pad msg)).foldl compress H0

def hexDigit (n : Nat) : Char :=
  if n < 10 then Char.ofNat (48 + n) else Char.ofNat (87 + n)

def word2hex (w : Nat) : List Char :=
  [hexDigit (w >>> 28 % 16), hexDigit (w >>> 24 % 16), hexDigit (w >>> 20 % 16),
   hexDigit (w >>> 16 % 16), hexDigit (w >>> 12 % 16), hexDigit (w >>> 8 % 16),
   hexDigit (w >>> 4 % 16), hexDigit (w % 16)]

def digestHex (msg : List Nat) : String :=
  String.mk ((digestWords msg).flatMap word2hex)

end Sha256

/-- UTF-8 encoding of a string as a list of byte values. -/
def utf8Bytes (s : String) : List Nat :=
  s.data.flatMap fun c =>
    let n := c.toNat
    if n < 0x80 then [n]
    else if n < 0x800 then [0xc0 + n / 64, 0x80 + n % 64]
    else if n < 0x10000 then [0xe0 + n / 4096, 0x80 + n / 64 % 64, 0x80 + n % 64]
    else [0xf0 + n / 262144, 0x80 + n / 4096 % 64, 0x80 + n / 64 % 64, 0x80 + n % 64]

/-- `hashlib.sha256(s.encode("utf-8")).hexdigest()`. -/
def sha256Hex (s : String) : String := Sha256.digestHex (utf8Bytes s)

/-! ## Python values and `json.dumps`

`PyVal` embeds the Python values the server passes to `json.dumps`:
`None`, booleans, (arbitrary-precision) ints, strings, the IEEE special
floats `nan`/`inf`/`-inf` (the only floats the canonicalization contract
singles out; finite non-integer floats do not occur in the embedded code
paths), lists, string-keyed dicts (the sources only build string keys),
and `unserializable t` standing for any object of a type the `json`
module rejects with a `TypeError` (a set, a custom object, ...).

Lists and dicts are encoded with explicit sequence constructors
(`lnil`/`lcons` for list contents, `dnil`/`dcons` for dict entries) so
that every function on `PyVal` is plain structural recursion; the helpers
`pyList`/`pyDict` build the encoding from Lean lists. -/

inductive PyVal where
  | pynone
  | pybool (b : Bool)
  | pyint (n : Int)
  | pystr (s : String)
  | nan
  | inf
  | ninf
  | lnil
  | lcons (hd tl : PyVal)
  | dnil
  | dcons (k : String) (v tl : PyVal)
  | pylist (content : PyVal)
  | pydict (content : PyVal)
  | unserializable (tag : String)
deriving DecidableEq

/-- Python list `[a, b, ...]` as a `PyVal`. -/
def pyList (xs : List PyVal) : PyVal :=
  .pylist (xs.foldr .lcons .lnil)

/-- Python dict `{k1: v1, ...}` (insertion order kept) as a `PyVal`. -/
def pyDict (kvs : List (String × PyVal)) : PyVal :=
  .pydict (kvs.foldr (fun kv t => .dcons kv.1 kv.2 t) .dnil)

/-- Python `None` / `"s"` had from an `Optional[str]` value. -/
def pyOptStr : Option String → PyVal
  | some s => .pystr s
  | none => .pynone

/-- Python `None` / int had from an `Optional[int]` value. -/
def pyOptInt : Option Int → PyVal
  | some n => .pyint n
  | none => .pynone

/-- Code-point comparison of char lists, as Python compares `str` values. -/
def charsLt : List Char → List Char → Bool
  | [], [] => false
  | [], _ :: _ => true
  | _ :: _, [] => false
  | a :: as, b :: bs =>
      if a.toNat < b.toNat then true
      else if b.toNat < a.toNat then false
      else charsLt as bs

/-- Python `a < b` on strings (lexicographic by code point). -/
def strLt (a b : String) : Bool := charsLt a.data b.data

/-- Stable insertion of a rendered `(key, item)` pair into a key-sorted list. -/
def insertByKey (p : String × String) : List (String × String) → List (String × String)
  | [] => [p]
  | q :: t => if strLt q.1 p.1 then q :: insertByKey p t else p :: q :: t

/-- Stable sort of rendered `(key, item)` pairs by key: `sorted(d.items())`. -/
def sortPairs : List (String × String) → List (String × String)
  | [] => []
  | p :: t => insertByKey p (sortPairs t)

def joinWith (sep : String) : List String → String
  | [] => ""
  | [x] => x
  | x :: y :: t => x ++ sep ++ joinWith sep (y :: t)

/-- Four lowercase hex digits, as in json's `\uXXXX` escapes. -/
def hex4 (n : Nat) : String :=
  String.mk [Sha256.hexDigit (n / 4096 % 16), Sha256.hexDigit (n / 256 % 16),
             Sha256.hexDigit (n / 16 % 16), Sha256.hexDigit (n % 16)]

/-- The json module's escaping of one character. `ea` is `ensure_ascii`:
when true, every code point above 0x7e is `\uXXXX`-escaped (with surrogate
pairs beyond the BMP); when false only `"`, `\` and control chars are. -/
def escChar (ea : Bool) (c : Char) : String :=
  let n := c.toNat
  if n = 34 then "\\\""
  else if n = 92 then "\\\\"
  else if n = 8 then "\\b"
  else if n = 9 then "\\t"
  else if n = 10 then "\\n"
  else if n = 12 then "\\f"
  else if n = 13 then "\\r"
  else if n < 32 then "\\u" ++ hex4 n
  else if ea && 126 < n then
    if n < 65536 then "\\u" ++ hex4 n
    else
      let m := n - 65536
      "\\u" ++ hex4 (55296 + m / 1024) ++ "\\u" ++ hex4 (56320 + m % 1024)
  else String.singleton c

/-- The json module's rendering of a string literal. -/
def encStr (ea : Bool) (s : String) : String :=
  "\"" ++ (s.data.map (escChar ea)).foldl (· ++ ·) "" ++ "\""

/-- Intermediate result of serializing one node: a rendered item, the
rendered items of a list body, or the rendered `(key, item)` pairs of a
dict body. -/
inductive SerOut where
  | item (s : String)
  | litems (l : List String)
  | ditems (l : List (String × String))

/-- `json.dumps` on a `PyVal`, configured by `sk` = `sort_keys`,
`sp` = spaced default separators `(", ", ": ")` (false = the compact
`(",", ":")`), `ea` = `ensure_ascii`.  `allow_nan` is left at its Python
default `True`, so `nan`/`inf`/`-inf` render as `NaN`/`Infinity`/`-Infinity`;
a value of an unsupported type raises `TypeError`, which surfaces here as
`.error`. Bare sequence constructors (not images of Python values) also
produce an `.error`. -/
def pySer (sk sp ea : Bool) : PyVal → Except String SerOut
  | .pynone => .ok (.item "null")
  | .pybool b => .ok (.item (if b then "true" else "false"))
  | .pyint n => .ok (.item (toString n))
  | .pystr s => .ok (.item (encStr ea s))
  | .nan => .ok (.item "NaN")
  | .inf => .ok (.item "Infinity")
  | .ninf => .ok (.item "-Infinity")
  | .lnil => .ok (.litems [])
  | .lcons hd tl => do
      match ← pySer sk sp ea hd, ← pySer sk sp ea tl with
      | .item s, .litems l => .ok (.litems (s :: l))
      | _, _ => .error "malformed value"
  | .dnil => .ok (.ditems [])
  | .dcons k v tl => do
      match ← pySer sk sp ea v, ← pySer sk sp ea tl with
      | .item s, .ditems l => .ok (.ditems ((k, s) :: l))
      | _, _ => .error "malformed value"
  | .pylist content => do
      match ← pySer sk sp ea content with
      | .litems l => .ok (.item ("[" ++ joinWith (if sp then ", " else ",") l ++ "]"))
      | _ => .error "malformed value"
  | .pydict content => do
      match ← pySer sk sp ea content with
      | .ditems l =>
          let l := if sk then sortPairs l else l
          let items := l.map fun p => encStr ea p.1 ++ (if sp then ": " else ":") ++ p.2
          .ok (.item ("\x7b" ++ joinWith (if sp then ", " else ",") items ++ "\x7d"))
      | _ => .error "malformed value"
  | .unserializable tag =>
      .error ("Object of type " ++ tag ++ " is not JSON serializable")

/-- `json.dumps(v, sort_keys=sk, separators=(spaced or compact), ensure_ascii=ea)`. -/
def pyDumps (sk sp ea : Bool) (v : PyVal) : Except String String :=
  match pySer sk sp ea v with
  | .ok (.item s) => .ok s
  | .ok _ => .error "malformed value"
  | .error e => .error e

/-! ## `server/domain/crypto/hash.py` -/

/-- `canonical_json(obj)`: `json.dumps(obj, sort_keys=True,
separators=(",", ":"), ensure_ascii=False)`, re-raising any
`TypeError`/`ValueError` as the module's `NonCanonicalizableValue`
message. -/
def canonical_json (v : PyVal) : Except String String :=
  match pyDumps true false false v with
  | .ok s => .ok s
  | .error _ => .error "Object is not JSON-serializable in canonical form"

/-- `hash_object(obj)`: SHA-256 hex digest of the UTF-8 bytes of
`canonical_json(obj)`. -/
def hash_object (v : PyVal) : Except String String :=
  match canonical_json v with
  | .ok s => .ok (sha256Hex s)
  | .error e => .error e

/-! ## Dict access on `PyVal` (Python `d[k]` / `d.get(k)`) -/

/-- Lookup inside a `dcons` entry chain. -/
def entriesGet : PyVal → String → Option PyVal
  | .dcons k v t, key => if k == key then some v else entriesGet t key
  | _, _ => none

/-- `d.get(k)` on a dict value (`none` both for a missing key and a non-dict). -/
def dictGet : PyVal → String → Option PyVal
  | .pydict c, key => entriesGet c key
  | _, _ => none

/-- An `Optional[str]` column value out of a dict entry. -/
def optStrOf : Option PyVal → Option String
  | some (.pystr s) => some s
  | _ => none

/-- An `Optional[int]` column value out of a dict entry. -/
def optIntOf : Option PyVal → Option Int
  | some (.pyint n) => some n
  | _ => none

/-! ## `server/infrastructure/db/blocks.py` and `server/application/blockchain/service.py`

A row of the `blocks` table.  The `payload_json` column is
`json.dumps(full_payload, ensure_ascii=False)` of the structured value
kept here as `full_payload`; `json.loads` of that column returns the same
structured value (Python's json round-trips the embedded value class,
object key order included), so `get_all_blocks`' parse step is the
identity on `full_payload`. -/

structure DbBlock where
  index : Nat
  prev_hash : String
  hash : String
  timestamp : Nat
  type : String
  full_payload : PyVal
deriving DecidableEq

/-- The `payload_json` column as persisted: `json.dumps(full_payload,
ensure_ascii=False)` (default separators, insertion key order). -/
def payload_json (b : DbBlock) : Except String String :=
  pyDumps false true false b.full_payload

/-- `insert_block`: the table is append-only. -/
def insert_block (chain : List DbBlock) (b : DbBlock) : List DbBlock :=
  chain ++ [b]

/-- `get_latest_block()`'s result, converted to the service's internal
format (`index`, `prev_hash`, `hash`, `timestamp`, `type`, parsed
`payload`). -/
structure InternalBlock where
  index : Nat
  prev_hash : String
  hash : String
  timestamp : Nat
  type : String
  payload : PyVal
deriving DecidableEq

def toInternal (b : DbBlock) : InternalBlock :=
  ⟨b.index, b.prev_hash, b.hash, b.timestamp, b.type, b.full_payload⟩

/-- `get_latest_block()`: the row with the largest `block_index` (the most
recently inserted row of a well-formed chain), in internal format. -/
def get_latest_block (chain : List DbBlock) : Option InternalBlock :=
  chain.getLast?.map toInternal

/-- A block dict as the trade service builds it and `append_block`
receives it: `type`, `trade_id`, `payload`, an optional `hash` key
(present on COMPLETE/CANCEL blocks, never read by `append_block`), and
`signatures`. -/
structure BlockDict where
  type : String
  trade_id : String
  payload : PyVal
  hash : Option String
  signatures : PyVal
deriving DecidableEq

/-- `full_payload` as `append_block` constructs it (insertion order
`type`, `trade_id`, `payload`, `signatures`). -/
def full_payload_of (b : BlockDict) : PyVal :=
  pyDict [("type", .pystr b.type), ("trade_id", .pystr b.trade_id),
          ("payload", b.payload), ("signatures", b.signatures)]

/-- `compute_block_hash(block)`: SHA-256 of
`str(index) + prev_hash + json.dumps(payload, sort_keys=True) + str(timestamp)`
(note: `json.dumps` here keeps its default separators `(", ", ": ")` and
default `ensure_ascii=True`). -/
def compute_block_hash (index : Nat) (prev_hash : String) (payload : PyVal)
    (timestamp : Nat) : Except String String :=
  match pyDumps true true true payload with
  | .ok s => .ok (sha256Hex (toString index ++ prev_hash ++ s ++ toString timestamp))
  | .error e => .error e

/-- `"0" * 64`, the genesis `prev_hash` sentinel. -/
def GENESIS_PREV : String :=
  "0000000000000000000000000000000000000000000000000000000000000000"

/-- `append_block(block_data)` given the value `get_latest_block()`
returned (`last_block`) and the two `int(time.time())` readings: `t1` is
the one hashed (in `block_for_hash`), `t2` the one stored in `db_block`.
Returns the `db_block` row it inserts, or the
`"Blockchain broken: prev_hash mismatch"` failure.  Note the final check
compares `db_block["prev_hash"]` against `last_block["hash"]` — the same
variable the `prev_hash` was computed from. -/
def append_block (last_block : Option InternalBlock) (bd : BlockDict)
    (t1 t2 : Nat) : Except String DbBlock :=
  let index := match last_block with
    | none => 0
    | some lb => lb.index + 1
  let prev_hash := match last_block with
    | none => GENESIS_PREV
    | some lb => lb.hash
  let fp := full_payload_of bd
  match compute_block_hash index prev_hash fp t1 with
  | .error e => .error e
  | .ok block_hash =>
    let db_block : DbBlock := ⟨index, prev_hash, block_hash, t2, bd.type, fp⟩
    match last_block with
    | some lb =>
        if db_block.prev_hash != lb.hash then .error "Blockchain broken: prev_hash mismatch"
        else .ok db_block
    | none => .ok db_block

/-- One `append_block` call against a store: the latest block is read from
`chainAtRead` and the produced row is inserted into `chainAtCommit` (the
two coincide for a serial append; they differ when another append
committed in between, the §5 race). -/
def append_block_on (chainAtRead chainAtCommit : List DbBlock) (bd : BlockDict)
    (t1 t2 : Nat) : Except String (List DbBlock) :=
  match append_block (get_latest_block chainAtRead) bd t1 t2 with
  | .ok db => .ok (insert_block chainAtCommit db)
  | .error e => .error e

/-- A block as `get_all_blocks()` returns it to `rebuild_state`. -/
structure ReplayBlock where
  type : String
  trade_id : String
  payload : PyVal
  signatures : PyVal
deriving DecidableEq

/-- `get_all_blocks()`: every row in index order with its `payload_json`
parsed back; `payload["trade_id"]` / `payload["payload"]` raise `KeyError`
when absent (committed rows always carry them),
`payload.get("signatures", {})` defaults to the empty dict. -/
def get_all_blocks (chain : List DbBlock) : Except String (List ReplayBlock) :=
  chain.mapM fun b =>
    match dictGet b.full_payload "trade_id", dictGet b.full_payload "payload" with
    | some (.pystr tid), some pl =>
        .ok ⟨b.type, tid, pl, (dictGet b.full_payload "signatures").getD (pyDict [])⟩
    | _, _ => .error "KeyError"

/-! ## Trade snapshot store (collaborator of `server/application/trade/service.py`)

The module `server/infrastructure/db/trades.py` is not among the
repository files here; its primitives are modelled from the
specification's §6 contract
(`getTrade`, `insertTrade`, `updateStatus`, `updateJoin`, `clearTrades`)
over an in-order list of rows.  A column a row was inserted without is
NULL (`none`). -/

structure TradeRow where
  trade_id : String
  seller_pubkey : String
  content_hash : String
  description : Option String
  price : Option Int
  status : String
  buyer_pubkey : Option String
  seller_chat_pubkey : Option String
  buyer_chat_pubkey : Option String
deriving DecidableEq

/-- Modelled from the spec: `getTrade(id)` returns the snapshot row keyed
by `trade_id`, or none. -/
def get_trade (st : List TradeRow) (tid : String) : Option TradeRow :=
  st.find? (fun r => r.trade_id == tid)

/-- Modelled from the spec: `insertTrade(row)` adds a new snapshot row. -/
def insert_trade (st : List TradeRow) (row : TradeRow) : List TradeRow :=
  st ++ [row]

/-- Modelled from the spec: `updateStatus(id, status)` rewrites the
`status` column of the row keyed by `trade_id`. -/
def update_trade_status (st : List TradeRow) (tid status : String) : List TradeRow :=
  st.map fun r => if r.trade_id == tid then { r with status := status } else r

/-- Modelled from the spec: `updateJoin(id, buyer_pubkey,
buyer_chat_pubkey)` records the buyer on the row keyed by `trade_id`. -/
def update_trade_join (st : List TradeRow) (tid bpk : String)
    (bcpk : Option String) : List TradeRow :=
  st.map fun r =>
    if r.trade_id == tid then { r with buyer_pubkey := some bpk, buyer_chat_pubkey := bcpk }
    else r

/-- Modelled from the spec: `clearTrades()` empties the snapshot store. -/
def clear_trades : List TradeRow := []

/-! ## `server/application/trade/service.py` -/

/-- `verify_create(trade_id, content_hash, seller_pubkey, signature,
description, price)`.  `sigVerify` is the `verify_signature` collaborator
(pubkey, hex digest, signature ↦ bool). -/
def verify_create (st : List TradeRow)
    (sigVerify : String → String → String → Bool)
    (trade_id content_hash seller_pubkey signature : String)
    (description : Option String) (price : Option Int) : Except String BlockDict :=
  if (get_trade st trade_id).isSome then .error "Trade already exists"
  else if !sigVerify seller_pubkey trade_id signature then .error "Invalid seller signature"
  else .ok ⟨"CREATE", trade_id,
    pyDict [("content_hash", .pystr content_hash), ("seller_pubkey", .pystr seller_pubkey),
            ("description", pyOptStr description), ("price", pyOptInt price)],
    none,
    pyDict [("seller", .pystr signature)]⟩

/-- `verify_complete(trade_id, complete_hash, seller_sig, buyer_sig)`. -/
def verify_complete (st : List TradeRow)
    (sigVerify : String → String → String → Bool)
    (trade_id complete_hash seller_sig buyer_sig : String) : Except String BlockDict :=
  match get_trade st trade_id with
  | none => .error "Trade not found"
  | some trade =>
    if trade.status != "OPEN" then .error "Trade is not open"
    else match trade.buyer_pubkey with
    | none => .error "Buyer pubkey not set"
    | some buyer_pubkey =>
      if !sigVerify trade.seller_pubkey complete_hash seller_sig then
        .error "Invalid seller signature"
      else if !sigVerify buyer_pubkey complete_hash buyer_sig then
        .error "Invalid buyer signature"
      else .ok ⟨"COMPLETE", trade_id,
        pyDict [("trade_id", .pystr trade_id), ("result", .pystr "COMPLETED")],
        some complete_hash,
        pyDict [("seller", .pystr seller_sig), ("buyer", .pystr buyer_sig)]⟩

/-- The cancel body `verify_cancel` reconstructs:
`{"trade_id": ..., "result": "CANCELLED", "timestamp": int(time.time())}`. -/
def cancel_body (trade_id : String) (now : Nat) : PyVal :=
  pyDict [("trade_id", .pystr trade_id), ("result", .pystr "CANCELLED"),
          ("timestamp", .pyint (now : Int))]

/-- `verify_cancel(trade_id, cancel_hash, seller_sig)`; `now` is the
`int(time.time())` read when the server reconstructs the cancel body. -/
def verify_cancel (st : List TradeRow)
    (sigVerify : String → String → String → Bool) (now : Nat)
    (trade_id cancel_hash seller_sig : String) : Except String BlockDict :=
  match get_trade st trade_id with
  | none => .error "Trade not found"
  | some trade =>
    if trade.status != "OPEN" then .error "Trade is not open"
    else if !sigVerify trade.seller_pubkey cancel_hash seller_sig then
      .error "Invalid seller signature"
    else
      let body := cancel_body trade_id now
      match hash_object body with
      | .error e => .error e
      | .ok local_hash =>
        if local_hash != cancel_hash then .error "Hash mismatch"
        else .ok ⟨"CANCEL", trade_id, body, some cancel_hash,
                  pyDict [("seller", .pystr seller_sig)]⟩

/-- The snapshot-table update of `apply_block` (its step 2): on CREATE it
inserts a row carrying `seller_pubkey`, `content_hash`, the optional
`description` and `price` from the block payload, and status OPEN; on
COMPLETE/CANCEL it rewrites the status. A missing payload key raises
`KeyError`. -/
def project_apply (st : List TradeRow) (b : BlockDict) : Except String (List TradeRow) :=
  if b.type == "CREATE" then
    match dictGet b.payload "seller_pubkey", dictGet b.payload "content_hash" with
    | some (.pystr spk), some (.pystr ch) =>
        .ok (insert_trade st
          ⟨b.trade_id, spk, ch, optStrOf (dictGet b.payload "description"),
           optIntOf (dictGet b.payload "price"), "OPEN", none, none, none⟩)
    | _, _ => .error "KeyError"
  else if b.type == "COMPLETE" then .ok (update_trade_status st b.trade_id "COMPLETED")
  else if b.type == "CANCEL" then .ok (update_trade_status st b.trade_id "CANCELLED")
  else .ok st

/-- `apply_block(block)`: append to the ledger (step 1), then update the
snapshot table (step 2).  State-passing form over (chain, store); `t1`,
`t2` are `append_block`'s two clock reads. -/
def apply_block (chain : List DbBlock) (st : List TradeRow) (b : BlockDict)
    (t1 t2 : Nat) : Except String (List DbBlock × List TradeRow) :=
  match append_block (get_latest_block chain) b t1 t2 with
  | .error e => .error e
  | .ok db =>
    match project_apply st b with
    | .error e => .error e
    | .ok st => .ok (insert_block chain db, st)

/-- The per-block body of `rebuild_state`'s loop: on CREATE it inserts a
row carrying only `trade_id`, `seller_pubkey`, `content_hash` and status
OPEN (no `description`, no `price`); on COMPLETE/CANCEL it rewrites the
status. -/
def project_rebuild (st : List TradeRow) (b : ReplayBlock) : Except String (List TradeRow) :=
  if b.type == "CREATE" then
    match dictGet b.payload "seller_pubkey", dictGet b.payload "content_hash" with
    | some (.pystr spk), some (.pystr ch) =>
        .ok (insert_trade st ⟨b.trade_id, spk, ch, none, none, "OPEN", none, none, none⟩)
    | _, _ => .error "KeyError"
  else if b.type == "COMPLETE" then .ok (update_trade_status st b.trade_id "COMPLETED")
  else if b.type == "CANCEL" then .ok (update_trade_status st b.trade_id "CANCELLED")
  else .ok st

/-- `rebuild_state()`: `clear_trades()`, then fold the loop body over
`get_all_blocks()` in chain order. -/
def rebuild_state (chain : List DbBlock) : Except String (List TradeRow) :=
  match get_all_blocks chain with
  | .error e => .error e
  | .ok blocks => blocks.foldlM project_rebuild clear_trades

/-- `join_trade(trade_id, buyer_pubkey, buyer_chat_pubkey)`. -/
def join_trade (st : List TradeRow) (tid bpk : String)
    (bcpk : Option String) : List TradeRow :=
  update_trade_join st tid bpk bcpk

/-- The `/cancel` route handler
(`server/interfaces/http/routers/trade.py`): `verify_cancel`, mapping a
validation exception to an HTTP 400 *without* calling `apply_block`;
only a successfully validated block reaches `apply_block`.  An erroring
result therefore carries no successor ledger/store state: the ledger is
untouched. -/
def cancel_trade (chain : List DbBlock) (st : List TradeRow)
    (sigVerify : String → String → String → Bool) (now t1 t2 : Nat)
    (trade_id cancel_hash seller_sig : String) :
    Except String (List DbBlock × List TradeRow) :=
  match verify_cancel st sigVerify now trade_id cancel_hash seller_sig with
  | .error e => .error e
  | .ok block => apply_block chain st block t1 t2

/-! ## `server/domain/crypto/verify.py`

The Python exception classes the module can see: `ValueError` (which
`binascii.Error` subclasses) from the decoders and key constructor, and
`cryptography.exceptions.InvalidSignature` from `pk.verify`; `otherExc`
stands for any exception outside the caught tuple. -/

inductive PyExc where
  | valueError (msg : String)
  | invalidSignature
  | otherExc (msg : String)
deriving DecidableEq

/-- Value of a standard base64-alphabet character. -/
def b64Val (c : Char) : Option Nat :=
  let n := c.toNat
  if 65 ≤ n ∧ n ≤ 90 then some (n - 65)
  else if 97 ≤ n ∧ n ≤ 122 then some (n - 97 + 26)
  else if 48 ≤ n ∧ n ≤ 57 then some (n - 48 + 52)
  else if n = 43 then some 62
  else if n = 47 then some 63
  else none

/-- Bytes of a run of six-bit values (quads, plus a 2- or 3-char tail). -/
def b64Quads : List Nat → List Nat
  | a :: b :: c :: d :: rest =>
      (a * 4 + b / 16) :: ((b % 16) * 16 + c / 4) :: ((c % 4) * 64 + d) :: b64Quads rest
  | [a, b] => [a * 4 + b / 16]
  | [a, b, c] => [a * 4 + b / 16, (b % 16) * 16 + c / 4]
  | _ => []

/-- `base64.b64decode(s.encode("utf-8"))` (non-strict, as `_b64_to_bytes`
calls it): characters outside the base64 alphabet are discarded; the
number of data characters must fill quads up to the `=` padding, else
`binascii.Error` (a `ValueError`) is raised. -/
def b64_to_bytes (s : String) : Except PyExc (List Nat) :=
  let data := s.data.filterMap b64Val
  let pads := (s.data.filter (fun c => c == '=')).length
  if data.length % 4 == 0 then .ok (b64Quads data)
  else if data.length % 4 == 1 then
    .error (.valueError "Invalid base64-encoded string")
  else if 4 - data.length % 4 ≤ pads then .ok (b64Quads data)
  else .error (.valueError "Invalid padding")

def hexVal (c : Char) : Option Nat :=
  let n := c.toNat
  if 48 ≤ n ∧ n ≤ 57 then some (n - 48)
  else if 97 ≤ n ∧ n ≤ 102 then some (n - 97 + 10)
  else if 65 ≤ n ∧ n ≤ 70 then some (n - 65 + 10)
  else none

def hexPairs : List Char → Option (List Nat)
  | [] => some []
  | a :: b :: t =>
      match hexVal a, hexVal b, hexPairs t with
      | some x, some y, some r => some ((16 * x + y) :: r)
      | _, _, _ => none
  | [_] => none

/-- `bytes.fromhex(s)` (as `_hex_to_bytes` calls it): spaces are skipped,
anything else must pair up into hex digits, else `ValueError`. -/
def hex_to_bytes (s : String) : Except PyExc (List Nat) :=
  match hexPairs (s.data.filter (fun c => !(c == ' '))) with
  | some bs => .ok bs
  | none => .error (.valueError "non-hexadecimal number found in fromhex() arg")

/-- `Ed25519PublicKey.from_public_bytes`: `ValueError` unless exactly 32
bytes. -/
def ed25519_from_public_bytes (bs : List Nat) : Except PyExc (List Nat) :=
  if bs.length == 32 then .ok bs
  else .error (.valueError "An Ed25519 public key is 32 bytes long")

/-- `pk.verify(signature, data)`: raises `InvalidSignature` unless the
curve equation accepts; the curve itself enters as the oracle `curve`
(public key bytes, signature bytes, message bytes ↦ accept). -/
def ed25519_verify (curve : List Nat → List Nat → List Nat → Bool)
    (pk sig msg : List Nat) : Except PyExc Unit :=
  if curve pk sig msg then .ok () else .error .invalidSignature

/-- `verify_signature(pubkey, hash, signature)`: the try-block decodes the
three inputs, builds the key and verifies; `except (InvalidSignature,
ValueError): return False`. -/
def verify_signature (curve : List Nat → List Nat → List Nat → Bool)
    (pubkey hash signature : String) : Except PyExc Bool :=
  let body : Except PyExc Bool := do
    let pk_bytes ← b64_to_bytes pubkey
    let sig_bytes ← b64_to_bytes signature
    let hash_bytes ← hex_to_bytes hash
    let pk ← ed25519_from_public_bytes pk_bytes
    let _ ← ed25519_verify curve pk sig_bytes hash_bytes
    pure true
  match body with
  | .ok b => .ok b
  | .error (.valueError _) => .ok false
  | .error .invalidSignature => .ok false
  | .error e => .error e

/-! ## `server/application/chat/service.py`

A connection handle; `alive` models whether `conn.send_json` succeeds or
raises (constant per broadcast, as the socket state is outside the
registry).  Members mirror the `(connection, identity_pubkey,
chat_pubkey)` tuples of the `_rooms` registry. -/

structure Conn where
  id : Nat
  alive : Bool
deriving DecidableEq

structure Member where
  conn : Conn
  identity_pubkey : String
  chat_pubkey : Option String
deriving DecidableEq

/-- The `_rooms` registry: `trade_id -> list of member tuples`. -/
def roomsGet (rooms : List (String × List Member)) (tid : String) :
    Option (List Member) :=
  (rooms.find? (fun e => e.1 == tid)).map (fun e => e.2)

def roomsSet (rooms : List (String × List Member)) (tid : String)
    (members : List Member) : List (String × List Member) :=
  if (rooms.find? (fun e => e.1 == tid)).isSome then
    rooms.map fun e => if e.1 == tid then (tid, members) else e
  else rooms ++ [(tid, members)]

def roomsDel (rooms : List (String × List Member)) (tid : String) :
    List (String × List Member) :=
  rooms.filter fun e => !(e.1 == tid)

/-- A relay-message dict (string keys, `PyVal` values, insertion order). -/
def msgGet (m : List (String × PyVal)) (k : String) : Option PyVal :=
  (m.find? (fun kv => kv.1 == k)).map (fun kv => kv.2)

/-- `message.pop(k, None)` (key removal half). -/
def msgPop (k : String) (m : List (String × PyVal)) : List (String × PyVal) :=
  m.filter fun kv => !(kv.1 == k)

/-- `message[k] = v`: overwrite in place, or append the new key. -/
def msgSet (k : String) (v : PyVal) (m : List (String × PyVal)) :
    List (String × PyVal) :=
  if (m.find? (fun kv => kv.1 == k)).isSome then
    m.map fun kv => if kv.1 == k then (k, v) else kv
  else m ++ [(k, v)]

/-- `leave_room(trade_id, conn)`: drop every tuple with that connection,
garbage-collect an emptied room; returns the registry and the
`(identity_pubkey, chat_pubkey)` pairs passed to the broker's
`remove_participant` (best-effort). -/
def leave_room (rooms : List (String × List Member)) (tid : String) (conn : Conn) :
    List (String × List Member) × List (String × Option String) :=
  match roomsGet rooms tid with
  | none => (rooms, [])
  | some members =>
    let removed := (members.filter (fun m => m.conn == conn)).map
      fun m => (m.identity_pubkey, m.chat_pubkey)
    let remaining := members.filter fun m => !(m.conn == conn)
    let rooms := roomsSet rooms tid remaining
    let rooms := if remaining.isEmpty then roomsDel rooms tid else rooms
    (rooms, removed)

/-- `_broadcast_local(trade_id, message)`: send to every member of the
room (no-op when the room is absent); members whose `send_json` raised are
collected and removed via `leave_room` after the loop.  Returns the
`(connection, message)` deliveries made and the registry afterwards. -/
def broadcast_local (rooms : List (String × List Member)) (tid : String)
    (message : List (String × PyVal)) :
    List (Conn × List (String × PyVal)) × List (String × List Member) :=
  match roomsGet rooms tid with
  | none => ([], rooms)
  | some members =>
    let sent := (members.filter (fun m => m.conn.alive)).map fun m => (m.conn, message)
    let dead := (members.filter (fun m => !m.conn.alive)).map fun m => m.conn
    (sent, dead.foldl (fun r c => (leave_room r tid c).1) rooms)

/-- `_emit(trade_id, message)`: broadcast a copy locally, then publish a
copy with `origin_id = _broker_id` (`selfId`) to the broker.  Returns
(local deliveries, registry, published `(channel trade_id, message)`
list). -/
def emit (selfId : String) (rooms : List (String × List Member)) (tid : String)
    (message : List (String × PyVal)) :
    List (Conn × List (String × PyVal)) × List (String × List Member) ×
      List (String × List (String × PyVal)) :=
  let (sent, rooms) := broadcast_local rooms tid message
  let publish_message := msgSet "origin_id" (.pystr selfId) message
  (sent, rooms, [(tid, publish_message)])

/-- The test `message.get("origin_id") == _broker_id` (Python `==` of a
possibly-absent dict value against the instance-id string). -/
def originIs (m : List (String × PyVal)) (selfId : String) : Bool :=
  match msgGet m "origin_id" with
  | some (.pystr s) => s == selfId
  | _ => false

/-- `_handle_broker_message(trade_id, message)`: drop a self-originated
message, otherwise strip `origin_id` and broadcast locally. -/
def handle_broker_message (selfId : String) (rooms : List (String × List Member))
    (tid : String) (message : List (String × PyVal)) :
    List (Conn × List (String × PyVal)) × List (String × List Member) :=
  if originIs message selfId then ([], rooms)
  else broadcast_local rooms tid (msgPop "origin_id" message)

/-- A row of the `chats` table (`insert_message`'s columns). -/
structure MsgRec where
  trade_id : String
  buyer_chat_pubkey : String
  sender_pubkey : String
  ciphertext : String
deriving DecidableEq

/-- `insert_message(trade_id, buyer_chat_pubkey, sender_pubkey,
ciphertext)`: append a row. -/
def insert_message (store : List MsgRec) (tid bpk spk ct : String) : List MsgRec :=
  store ++ [⟨tid, bpk, spk, ct⟩]

/-- `relay(trade_id, ciphertext, sender_chat_pubkey, buyer_chat_pubkey)`:
returns immediately when the trade has no local room; otherwise persists
best-effort (`persistOk` models whether `insert_message` succeeded — a
failure is logged and swallowed), builds the CHAT message and emits it.
Result: (registry, message store, local deliveries, broker publishes). -/
def relay (selfId : String) (rooms : List (String × List Member))
    (store : List MsgRec) (tid ciphertext sender_chat_pubkey buyer_chat_pubkey : String)
    (now : Nat) (persistOk : Bool) :
    List (String × List Member) × List MsgRec ×
      List (Conn × List (String × PyVal)) × List (String × List (String × PyVal)) :=
  match roomsGet rooms tid with
  | none => (rooms, store, [], [])
  | some _ =>
    let store := if persistOk then
        insert_message store tid buyer_chat_pubkey sender_chat_pubkey ciphertext
      else store
    let message : List (String × PyVal) :=
      [("type", .pystr "CHAT"), ("trade_id", .pystr tid),
       ("sender_chat_pubkey", .pystr sender_chat_pubkey),
       ("ciphertext", .pystr ciphertext), ("timestamp", .pyint (now : Int))]
    let (sent, rooms, published) := emit selfId rooms tid message
    (rooms, store, sent, published)

/-! ## `server/infrastructure/messaging/redis_chat_broker.py`

Redis unordered-set state: key ↦ members (insertion-ordered list, no
duplicates, as `SADD`/`SREM` maintain). -/

def setsGet (sets : List (String × List String)) (key : String) : List String :=
  ((sets.find? (fun e => e.1 == key)).map (fun e => e.2)).getD []

def sadd (sets : List (String × List String)) (key val : String) :
    List (String × List String) :=
  if (sets.find? (fun e => e.1 == key)).isSome then
    sets.map fun e =>
      if e.1 == key then (key, if e.2.contains val then e.2 else e.2 ++ [val]) else e
  else sets ++ [(key, [val])]

def srem (sets : List (String × List String)) (key val : String) :
    List (String × List String) :=
  sets.map fun e => if e.1 == key then (key, e.2.filter (fun v => !(v == val))) else e

/-- The class body's FIRST `_room_key` definition (textually earlier,
docstringed): `f"{self._channel_prefix}:room:{trade_id}"`.  Python binds
the later duplicate over it, so no method ever calls this one. -/
def room_key_first (channelPfx tid : String) : String :=
  channelPfx ++ ":room:" ++ tid

/-- The class body's SECOND `_room_key` definition — the one Python keeps
(`last def wins`): the fixed `f"chat_room:{trade_id}"`, ignoring the
configured channel prefix (`channelPfx` mirrors `self._channel_prefix`). -/
def room_key (channelPfx tid : String) : String :=
  "chat_room:" ++ tid

/-- The JSON entry `add_participant`/`remove_participant` store:
`json.dumps({"identity_pubkey": ..., "chat_pubkey": ...})` (default
separators and `ensure_ascii`). -/
def participant_entry (ip : String) (cpk : Option String) : Except String String :=
  pyDumps false true true
    (pyDict [("identity_pubkey", .pystr ip), ("chat_pubkey", pyOptStr cpk)])

/-- `add_participant(trade_id, identity_pubkey, chat_pubkey)`: `SADD` the
entry under `self._room_key(trade_id)`. -/
def add_participant (channelPfx : String) (sets : List (String × List String))
    (tid ip : String) (cpk : Option String) : Except String (List (String × List String)) :=
  match participant_entry ip cpk with
  | .ok entry => .ok (sadd sets (room_key channelPfx tid) entry)
  | .error e => .error e

/-- `remove_participant(trade_id, identity_pubkey, chat_pubkey)`: `SREM`
the entry under `self._room_key(trade_id)`. -/
def remove_participant (channelPfx : String) (sets : List (String × List String))
    (tid ip : String) (cpk : Option String) : Except String (List (String × List String)) :=
  match participant_entry ip cpk with
  | .ok entry => .ok (srem sets (room_key channelPfx tid) entry)
  | .error e => .error e

/-- `get_participants(trade_id)`: `SMEMBERS` of `self._room_key(trade_id)`
(the raw stored entries; the caller-side `json.loads` skip-corrupt loop is
not needed by any claim about the key). -/
def get_participants (channelPfx : String) (sets : List (String × List String))
    (tid : String) : List String :=
  setsGet sets (room_key channelPfx tid)

/-! ## Helper facts -/

instance : Inhabited DbBlock := ⟨⟨0, "", "", 0, "", .pynone⟩⟩

instance exceptDecEq {ε α : Type} [DecidableEq ε] [DecidableEq α] :
    DecidableEq (Except ε α) := fun a b =>
  match a, b with
  | .ok x, .ok y =>
      if h : x = y then .isTrue (by rw [h])
      else .isFalse (fun c => by cases c; exact h rfl)
  | .error x, .error y =>
      if h : x = y then .isTrue (by rw [h])
      else .isFalse (fun c => by cases c; exact h rfl)
  | .ok _, .error _ => .isFalse (fun c => Except.noConfusion c)
  | .error _, .ok _ => .isFalse (fun c => Except.noConfusion c)

/-- The value contains a component of a type `json.dumps` rejects. -/
inductive ContainsUnser : PyVal → Prop where
  | here (t : String) : ContainsUnser (.unserializable t)
  | lconsHd {hd tl : PyVal} : ContainsUnser hd → ContainsUnser (.lcons hd tl)
  | lconsTl {hd tl : PyVal} : ContainsUnser tl → ContainsUnser (.lcons hd tl)
  | dconsV {k : String} {v tl : PyVal} : ContainsUnser v → ContainsUnser (.dcons k v tl)
  | dconsTl {k : String} {v tl : PyVal} : ContainsUnser tl → ContainsUnser (.dcons k v tl)
  | inList {c : PyVal} : ContainsUnser c → ContainsUnser (.pylist c)
  | inDict {c : PyVal} : ContainsUnser c → ContainsUnser (.pydict c)

@[simp]
theorem except_bind_err {ε α β : Type} (e : ε) (f : α → Except ε β) :
    (Except.error e >>= f) = Except.error e := rfl

@[simp]
theorem except_bind_ok {ε α β : Type} (a : α) (f : α → Except ε β) :
    (Except.ok a >>= f) = f a := rfl

set_option maxRecDepth 40000 in
/-- The embedded SHA-256 agrees with the FIPS 180-4 test vector for "abc". -/
theorem sha256Hex_abc : sha256Hex "abc" =
    "ba7816bf8f01cfea414140de5dae2223b00361a396177a9cb410ff61f20015ad" := by decide

/-- The embedded canonicalizer agrees with
`json.dumps({"b": 1, "a": "x"}, sort_keys=True, separators=(",", ":"))`. -/
theorem canonical_json_sample : canonical_json (pyDict [("b", .pyint 1), ("a", .pystr "x")]) =
    .ok "\x7b\"a\":\"x\",\"b\":1\x7d" := by rfl

/-- The spaced-separator configuration agrees with
`json.dumps({"b": 1, "a": "x"}, sort_keys=True)`. -/
theorem pyDumps_spaced_sample : pyDumps true true true (pyDict [("b", .pyint 1), ("a", .pystr "x")]) =
    .ok "\x7b\"a\": \"x\", \"b\": 1\x7d" := by rfl

/-- Serialization of a value with an unserializable component errors. -/
theorem pySer_error_of_contains (sk sp ea : Bool) (v : PyVal) (h : ContainsUnser v) :
    ∃ e, pySer sk sp ea v = .error e := by
  induction h with
  | here t => exact ⟨_, rfl⟩
  | lconsHd h ih =>
      obtain ⟨e, he⟩ := ih
      exact ⟨e, by simp [pySer, he]⟩
  | lconsTl h ih =>
      obtain ⟨e, he⟩ := ih
      rename_i hd tl
      cases hh : pySer sk sp ea hd with
      | error e2 => exact ⟨e2, by simp [pySer, hh]⟩
      | ok r => exact ⟨e, by simp [pySer, hh, he]⟩
  | dconsV h ih =>
      obtain ⟨e, he⟩ := ih
      exact ⟨e, by simp [pySer, he]⟩
  | dconsTl h ih =>
      obtain ⟨e, he⟩ := ih
      rename_i k v' tl
      cases hh : pySer sk sp ea v' with
      | error e2 => exact ⟨e2, by simp [pySer, hh]⟩
      | ok r => exact ⟨e, by simp [pySer, hh, he]⟩
  | inList h ih =>
      obtain ⟨e, he⟩ := ih
      exact ⟨e, by simp [pySer, he]⟩
  | inDict h ih =>
      obtain ⟨e, he⟩ := ih
      exact ⟨e, by simp [pySer, he]⟩

/-- `b64_to_bytes` only raises `ValueError`s. -/
theorem b64_to_bytes_err (s : String) (e : PyExc) (h : b64_to_bytes s = .error e) :
    ∃ m, e = .valueError m := by
  unfold b64_to_bytes at h
  dsimp only at h
  split_ifs at h
  all_goals first
    | exact Except.noConfusion h
    | (cases h; exact ⟨_, rfl⟩)

/-- `hex_to_bytes` only raises `ValueError`s. -/
theorem hex_to_bytes_err (s : String) (e : PyExc) (h : hex_to_bytes s = .error e) :
    ∃ m, e = .valueError m := by
  unfold hex_to_bytes at h
  split at h
  · exact Except.noConfusion h
  · cases h; exact ⟨_, rfl⟩

/-- What `verify_signature` computes, as one total boolean: true exactly
when all three decodes succeed, the key is 32 bytes and the curve
accepts; `.ok false` in every other case — never an uncaught exception. -/
theorem verify_signature_eq (curve : List Nat → List Nat → List Nat → Bool)
    (pubkey hash signature : String) :
    verify_signature curve pubkey hash signature = .ok (
      match b64_to_bytes pubkey, b64_to_bytes signature, hex_to_bytes hash with
      | .ok pkb, .ok sigb, .ok hb => pkb.length == 32 && curve pkb sigb hb
      | _, _, _ => false) := by
  unfold verify_signature
  cases hpk : b64_to_bytes pubkey with
  | error e =>
      obtain ⟨m, rfl⟩ := b64_to_bytes_err _ _ hpk
      simp
  | ok pkb =>
    cases hsg : b64_to_bytes signature with
    | error e =>
        obtain ⟨m, rfl⟩ := b64_to_bytes_err _ _ hsg
        simp
    | ok sigb =>
      cases hhx : hex_to_bytes hash with
      | error e =>
          obtain ⟨m, rfl⟩ := hex_to_bytes_err _ _ hhx
          simp
      | ok hb =>
        unfold ed25519_from_public_bytes ed25519_verify
        by_cases hlen : pkb.length = 32
        · by_cases hcv : curve pkb sigb hb
          · simp [hlen, hcv]
          · simp [hlen, hcv]
        · simp [hlen]

/-- C9: for every triple of string inputs — malformed base64, malformed
hex, wrong-length keys, invalid signatures included — `verify_signature`
returns a boolean and never raises; it returns `false` on any malformed
encoding or failed verification (it is `true` only when all decodes
succeed, the key is 32 bytes and the curve accepts). -/
theorem crypto_c9_verify_total
    (curve : List Nat → List Nat → List Nat → Bool) (pubkey hash signature : String) :
    (verify_signature curve pubkey hash signature = .ok true ∨
     verify_signature curve pubkey hash signature = .ok false) ∧
    (verify_signature curve pubkey hash signature = .ok true →
      ∃ pkb sigb hb, b64_to_bytes pubkey = .ok pkb ∧ b64_to_bytes signature = .ok sigb ∧
        hex_to_bytes hash = .ok hb ∧ pkb.length = 32 ∧ curve pkb sigb hb = true) := by
  have hq := verify_signature_eq curve pubkey hash signature
  constructor
  · rw [hq]
    cases hpk : b64_to_bytes pubkey <;> cases hsg : b64_to_bytes signature <;>
      cases hhx : hex_to_bytes hash <;> simp
  · intro htrue
    rw [hq] at htrue
    cases hpk : b64_to_bytes pubkey <;> rw [hpk] at htrue <;>
      cases hsg : b64_to_bytes signature <;> rw [hsg] at htrue <;>
        cases hhx : hex_to_bytes hash <;> rw [hhx] at htrue <;> simp_all

/-- C4 counterexample: `canonical_json` of a floating-point NaN does not
fail — `json.dumps` keeps its default `allow_nan=True` and returns the
token `NaN` — refuting, at the input NaN, the claim that any value with a
non-deterministically-serializable component fails with
`NonCanonicalizableValue`. -/
theorem hash_c4_nan_counterexample :
    canonical_json PyVal.nan = .ok "NaN" := by rfl

/-- C4 (amended): `canonical_json` fails with the `NonCanonicalizableValue`
error for every value containing a component of a type `json` cannot
serialize (the `TypeError` path: sets, arbitrary objects, ...); a
floating-point NaN is not such a component — with `allow_nan` left at its
default it serializes as the non-standard token `NaN` (and the infinities
as `Infinity`/`-Infinity`). -/
theorem hash_c4_unserializable_fails :
    (∀ v, ContainsUnser v →
      canonical_json v = .error "Object is not JSON-serializable in canonical form") ∧
    canonical_json PyVal.nan = .ok "NaN" ∧
    canonical_json PyVal.inf = .ok "Infinity" ∧
    canonical_json PyVal.ninf = .ok "-Infinity" := by
  refine ⟨fun v h => ?_, rfl, rfl, rfl⟩
  obtain ⟨e, he⟩ := pySer_error_of_contains true false false v h
  unfold canonical_json pyDumps
  rw [he]

/-- C5: every participant operation of the Redis broker addresses the one
set key `self._room_key(trade_id)` — but that key is the fixed
`"chat_room:<trade_id>"` produced by the second (surviving) `_room_key`
definition, not the `"<prefix>:room:<trade_id>"` of the first
(shadowed, documented) definition: the configured channel prefix is
ignored. -/
theorem broker_c5_room_key (channelPfx tid ip : String) (cpk : Option String)
    (sets : List (String × List String)) :
    room_key channelPfx tid = "chat_room:" ++ tid ∧
    add_participant channelPfx sets tid ip cpk =
      (participant_entry ip cpk).map (sadd sets (room_key channelPfx tid)) ∧
    remove_participant channelPfx sets tid ip cpk =
      (participant_entry ip cpk).map (srem sets (room_key channelPfx tid)) ∧
    get_participants channelPfx sets tid = setsGet sets (room_key channelPfx tid) ∧
    room_key "chat" "t1" = "chat_room:t1" ∧
    room_key_first "chat" "t1" = "chat:room:t1" ∧
    room_key "chat" "t1" ≠ room_key_first "chat" "t1" := by
  refine ⟨rfl, ?_, ?_, rfl, rfl, rfl, by decide⟩
  · unfold add_participant Except.map
    cases participant_entry ip cpk <;> rfl
  · unfold remove_participant Except.map
    cases participant_entry ip cpk <;> rfl

/-- C8: the broker-message handler delivers nothing locally when the
message's `origin_id` equals the receiving instance's own broker id, and
otherwise broadcasts the message, `origin_id` stripped, to every local
room member whose connection is live. -/
theorem chat_c8_echo_suppression (selfId : String)
    (rooms : List (String × List Member)) (tid : String)
    (message : List (String × PyVal)) :
    (originIs message selfId = true →
      handle_broker_message selfId rooms tid message = ([], rooms)) ∧
    (originIs message selfId = false →
      (handle_broker_message selfId rooms tid message).1 =
        (((roomsGet rooms tid).getD []).filter (fun m => m.conn.alive)).map
          (fun m => (m.conn, msgPop "origin_id" message))) := by
  constructor
  · intro h
    simp [handle_broker_message, h]
  · intro h
    unfold handle_broker_message
    rw [h]
    simp only [Bool.false_eq_true, if_false]
    unfold broadcast_local
    cases hr : roomsGet rooms tid with
    | none => simp [hr]
    | some members => simp [hr]

/-- C10: `relay` on a trade with no entry in the local room registry
returns without any effect: the registry, the message store, the local
deliveries and the broker publishes are all unchanged/empty — the
message is dropped entirely, its durable record included. -/
theorem chat_c10_relay_no_room (selfId : String)
    (rooms : List (String × List Member)) (store : List MsgRec)
    (tid ciphertext sender_chat_pubkey buyer_chat_pubkey : String)
    (now : Nat) (persistOk : Bool)
    (h : roomsGet rooms tid = none) :
    relay selfId rooms store tid ciphertext sender_chat_pubkey buyer_chat_pubkey
        now persistOk = (rooms, store, [], []) := by
  unfold relay
  rw [h]

/-- C10 witness: a concrete relay on an instance with no local members
for the trade. -/
theorem chat_c10_witness :
    relay "origin0" [("t9", [⟨⟨7, true⟩, "ipk", none⟩])] [] "t1" "ct" "spk" "bpk"
        1700000000 true = ([("t9", [⟨⟨7, true⟩, "ipk", none⟩])], [], [], []) :=
  chat_c10_relay_no_room "origin0" [("t9", [⟨⟨7, true⟩, "ipk", none⟩])] []
    "t1" "ct" "spk" "bpk" 1700000000 true (by rfl)

/-- The reconstructed cancel body always serializes (its three entries are
a string, a literal and an int), so `hash_object` of it returns a digest. -/
theorem hash_object_cancel_body (tid : String) (now : Nat) :
    ∃ lh, hash_object (cancel_body tid now) = .ok lh :=
  ⟨_, rfl⟩

/-- C6: on an OPEN trade with a valid seller signature, a `cancel_hash`
that differs from the digest of the server-reconstructed body
`{trade_id, result: "CANCELLED", timestamp}` makes `verify_cancel` fail
with `Hash mismatch`, and the `/cancel` route propagates that failure
without calling `apply_block` — no block is appended. -/
theorem trade_c6_cancel_hash_mismatch
    (chain : List DbBlock) (st : List TradeRow)
    (sigVerify : String → String → String → Bool) (now t1 t2 : Nat)
    (trade_id cancel_hash seller_sig : String) (tr : TradeRow)
    (hget : get_trade st trade_id = some tr)
    (hopen : tr.status = "OPEN")
    (hsig : sigVerify tr.seller_pubkey cancel_hash seller_sig = true)
    (hne : hash_object (cancel_body trade_id now) ≠ .ok cancel_hash) :
    verify_cancel st sigVerify now trade_id cancel_hash seller_sig =
      .error "Hash mismatch" ∧
    cancel_trade chain st sigVerify now t1 t2 trade_id cancel_hash seller_sig =
      .error "Hash mismatch" := by
  obtain ⟨lh, hok⟩ := hash_object_cancel_body trade_id now
  have hlh : lh ≠ cancel_hash := fun hc => hne (hc ▸ hok)
  have hv : verify_cancel st sigVerify now trade_id cancel_hash seller_sig =
      .error "Hash mismatch" := by
    unfold verify_cancel
    simp only [hget, hopen, hsig, hok, bne_self_eq_false, Bool.not_true,
      Bool.false_eq_true, if_false]
    simp [bne_iff_ne, hlh]
  refine ⟨hv, ?_⟩
  unfold cancel_trade
  rw [hv]

/-- C6 witness: a concrete OPEN trade, an always-accepting signature
oracle and an empty `cancel_hash` (which no digest equals). -/
theorem trade_c6_witness :
    verify_cancel [⟨"t1", "spk", "ch", none, none, "OPEN", none, none, none⟩]
        (fun _ _ _ => true) 0 "t1" "" "sig" = .error "Hash mismatch" ∧
    cancel_trade [] [⟨"t1", "spk", "ch", none, none, "OPEN", none, none, none⟩]
        (fun _ _ _ => true) 0 0 0 "t1" "" "sig" = .error "Hash mismatch" :=
  trade_c6_cancel_hash_mismatch [] [⟨"t1", "spk", "ch", none, none, "OPEN", none, none, none⟩]
    (fun _ _ _ => true) 0 0 0 "t1" "" "sig"
    ⟨"t1", "spk", "ch", none, none, "OPEN", none, none, none⟩
    (by rfl) rfl rfl (by decide)

/-- C7: `verify_complete`'s four gates in order — `Trade not found` when
no snapshot exists, `Trade is not open` unless the status is OPEN,
`Buyer pubkey not set` when no buyer is recorded, an invalid-signature
failure unless both the seller's and the buyer's signatures over
`complete_hash` verify — and only with all four passed does it return
the COMPLETE block payload. -/
theorem trade_c7_complete_gates (st : List TradeRow)
    (sigVerify : String → String → String → Bool)
    (trade_id complete_hash seller_sig buyer_sig : String) :
    (get_trade st trade_id = none →
      verify_complete st sigVerify trade_id complete_hash seller_sig buyer_sig =
        .error "Trade not found") ∧
    (∀ tr, get_trade st trade_id = some tr → tr.status ≠ "OPEN" →
      verify_complete st sigVerify trade_id complete_hash seller_sig buyer_sig =
        .error "Trade is not open") ∧
    (∀ tr, get_trade st trade_id = some tr → tr.status = "OPEN" →
      tr.buyer_pubkey = none →
      verify_complete st sigVerify trade_id complete_hash seller_sig buyer_sig =
        .error "Buyer pubkey not set") ∧
    (∀ tr bp, get_trade st trade_id = some tr → tr.status = "OPEN" →
      tr.buyer_pubkey = some bp →
      ¬(sigVerify tr.seller_pubkey complete_hash seller_sig = true ∧
        sigVerify bp complete_hash buyer_sig = true) →
      (verify_complete st sigVerify trade_id complete_hash seller_sig buyer_sig =
         .error "Invalid seller signature" ∨
       verify_complete st sigVerify trade_id complete_hash seller_sig buyer_sig =
         .error "Invalid buyer signature")) ∧
    (∀ tr bp, get_trade st trade_id = some tr → tr.status = "OPEN" →
      tr.buyer_pubkey = some bp →
      sigVerify tr.seller_pubkey complete_hash seller_sig = true →
      sigVerify bp complete_hash buyer_sig = true →
      verify_complete st sigVerify trade_id complete_hash seller_sig buyer_sig =
        .ok ⟨"COMPLETE", trade_id,
          pyDict [("trade_id", .pystr trade_id), ("result", .pystr "COMPLETED")],
          some complete_hash,
          pyDict [("seller", .pystr seller_sig), ("buyer", .pystr buyer_sig)]⟩) := by
  refine ⟨?_, ?_, ?_, ?_, ?_⟩
  · intro h
    unfold verify_complete
    rw [h]
  · intro tr hget hne
    unfold verify_complete
    have hb : (tr.status != "OPEN") = true := by simpa [bne_iff_ne] using hne
    simp only [hget, hb, if_true]
  · intro tr hget hopen hbuyer
    unfold verify_complete
    simp only [hget, hopen, hbuyer, bne_self_eq_false, Bool.false_eq_true, if_false]
  · intro tr bp hget hopen hbuyer hnot
    unfold verify_complete
    simp only [hget, hopen, hbuyer, bne_self_eq_false, Bool.false_eq_true, if_false]
    by_cases hs : sigVerify tr.seller_pubkey complete_hash seller_sig = true
    · have hb : sigVerify bp complete_hash buyer_sig = false :=
        Bool.eq_false_iff.mpr fun hb => hnot ⟨hs, hb⟩
      right
      simp only [hs, hb, Bool.not_true, Bool.not_false, Bool.false_eq_true, if_false,
        if_true]
    · left
      simp only [Bool.eq_false_iff.mpr hs, Bool.not_false, if_true]
  · intro tr bp hget hopen hbuyer hs hb
    unfold verify_complete
    simp only [hget, hopen, hbuyer, hs, hb, bne_self_eq_false, Bool.not_true,
      Bool.false_eq_true, if_false]

/-! ## Concrete committed blocks for the ledger claims -/

/-- A CREATE block dict with a description and a price (as
`verify_create` builds it). -/
def c1_block : BlockDict :=
  ⟨"CREATE", "t1",
   pyDict [("content_hash", .pystr "ch"), ("seller_pubkey", .pystr "spk"),
           ("description", .pystr "nice desk"), ("price", .pyint 50)],
   none, pyDict [("seller", .pystr "sig")]⟩

/-- The ledger and snapshot store after `apply_block` commits `c1_block`
onto the empty state. -/
def c1_applied : List DbBlock × List TradeRow :=
  match apply_block [] [] c1_block 1700000000 1700000000 with
  | .ok p => p
  | .error _ => ([], [])

/-- The snapshot store `rebuild_state` reconstructs from that ledger. -/
def c1_rebuilt : List TradeRow :=
  match rebuild_state c1_applied.1 with
  | .ok s => s
  | .error _ => []

set_option maxRecDepth 100000 in
/-- C1 (bug evidence): committing one CREATE block with a description and
a price through `apply_block` and then replaying the very same ledger
through `rebuild_state` does NOT reproduce the snapshot: the rebuilt row
has lost `description` and `price` (the rebuild loop's CREATE insert
omits those columns), so rebuild is not field-identical to incremental
application. -/
theorem trade_c1_rebuild_drops_description_price :
    apply_block [] [] c1_block 1700000000 1700000000 = .ok c1_applied ∧
    rebuild_state c1_applied.1 = .ok c1_rebuilt ∧
    c1_applied.2 ≠ c1_rebuilt ∧
    c1_applied.2.map (fun r => (r.description, r.price)) =
      [(some "nice desk", some 50)] ∧
    c1_rebuilt.map (fun r => (r.description, r.price)) = [(none, none)] :=
  ⟨rfl, rfl, by decide, by decide, by decide⟩

/-- The genesis-append block data of the C2 race scenario. -/
def c2_gen : BlockDict :=
  ⟨"CREATE", "g",
   pyDict [("content_hash", .pystr "c0"), ("seller_pubkey", .pystr "s0"),
           ("description", .pynone), ("price", .pynone)],
   none, pyDict [("seller", .pystr "sg")]⟩

/-- Racing append A's block data. -/
def c2_bdA : BlockDict :=
  ⟨"CREATE", "a",
   pyDict [("content_hash", .pystr "c1"), ("seller_pubkey", .pystr "s1"),
           ("description", .pynone), ("price", .pynone)],
   none, pyDict [("seller", .pystr "sa")]⟩

/-- Racing append B's block data. -/
def c2_bdB : BlockDict :=
  ⟨"CREATE", "b",
   pyDict [("content_hash", .pystr "c2"), ("seller_pubkey", .pystr "s2"),
           ("description", .pynone), ("price", .pynone)],
   none, pyDict [("seller", .pystr "sb")]⟩

/-- The chain after the genesis append. -/
def c2_chain1 : List DbBlock :=
  match append_block_on [] [] c2_gen 100 100 with
  | .ok c => c
  | .error _ => []

/-- The chain after append A (read and commit both at `c2_chain1`). -/
def c2_chain2 : List DbBlock :=
  match append_block_on c2_chain1 c2_chain1 c2_bdA 200 200 with
  | .ok c => c
  | .error _ => []

/-- The chain after the racing append B: B read the latest block from
`c2_chain1` (before A committed) but persists into `c2_chain2`. -/
def c2_chain3 : List DbBlock :=
  match append_block_on c2_chain1 c2_chain2 c2_bdB 300 300 with
  | .ok c => c
  | .error _ => []

set_option maxRecDepth 100000 in
/-- C2 (bug evidence): the commit-time re-check compares
`db_block["prev_hash"]` with the hash of the very `last_block` that
`prev_hash` was copied from, so it can never fire: whenever the payload
serializes, `append_block` on a non-empty chain succeeds outright (first
conjunct).  In the two-append race — B read the latest block before A
committed — B's append therefore also succeeds: the chain grows to 3
blocks, with blocks 1 and 2 sharing the same index and the same
`prev_hash` (a lost update), instead of B failing with
`ChainBrokenError` and the chain length increasing by exactly one. -/
theorem chain_c2_race_guard_never_fires :
    (∀ (lb : InternalBlock) (bd : BlockDict) (t1 t2 : Nat) (s : String),
      pyDumps true true true (full_payload_of bd) = .ok s →
      append_block (some lb) bd t1 t2 =
        .ok ⟨lb.index + 1, lb.hash,
             sha256Hex (toString (lb.index + 1) ++ lb.hash ++ s ++ toString t1), t2,
             bd.type, full_payload_of bd⟩) ∧
    append_block_on c2_chain1 c2_chain2 c2_bdB 300 300 = .ok c2_chain3 ∧
    c2_chain3.length = 3 ∧
    c2_chain3.map (fun b => b.index) = [0, 1, 1] ∧
    (c2_chain3.get? 1).map (fun b => b.prev_hash) =
      (c2_chain3.get? 2).map (fun b => b.prev_hash) := by
  refine ⟨?_, rfl, by decide, by decide, by decide⟩
  intro lb bd t1 t2 s hs
  unfold append_block compute_block_hash
  dsimp only
  rw [hs]
  simp [bne_self_eq_false]

/-- A CREATE block dict for the hash-preimage claim. -/
def c3_bd : BlockDict :=
  ⟨"CREATE", "t1",
   pyDict [("content_hash", .pystr "ch"), ("seller_pubkey", .pystr "spk"),
           ("description", .pystr "nice desk"), ("price", .pyint 50)],
   none, pyDict [("seller", .pystr "sig")]⟩

/-- The row `append_block` persists for `c3_bd` on an empty chain, both
clock reads at 1700000000. -/
def c3_db : DbBlock :=
  match append_block none c3_bd 1700000000 1700000000 with
  | .ok b => b
  | .error _ => default

/-- The whitespace-free canonical serialization (repo's `canonical_json`)
of that block's persisted payload. -/
def c3_canon : String :=
  match canonical_json (full_payload_of c3_bd) with
  | .ok s => s
  | .error _ => ""

set_option maxRecDepth 100000 in
/-- C3 counterexample: for a concretely appended block, the stored hash
does NOT equal the SHA-256 of
`str(index) ∥ prev_hash ∥ canonicalize(payload) ∥ str(timestamp)` with
`canonicalize` the whitespace-free canonical serialization: the code
hashes `json.dumps(payload, sort_keys=True)` with Python's default
spaced separators instead. -/
theorem chain_c3_counterexample :
    append_block none c3_bd 1700000000 1700000000 = .ok c3_db ∧
    canonical_json (full_payload_of c3_bd) = .ok c3_canon ∧
    c3_db.hash ≠
      sha256Hex (toString c3_db.index ++ c3_db.prev_hash ++ c3_canon ++
        toString c3_db.timestamp) :=
  ⟨rfl, rfl, by decide⟩

/-- C3 (amended): every block `append_block` persists carries
`hash = SHA256(str(index) ∥ prev_hash ∥ json.dumps(full_payload,
sort_keys=True) ∥ str(t1))` — deterministic key order but Python's
default spaced separators (and default `ensure_ascii`), not the
whitespace-free canonical form — where `t1` is the clock read made for
the hash; the stored `timestamp` field is the second, separate clock
read `t2` (equal to `t1` whenever both fall in the same second).  The
payload hashed and persisted is rebuilt from the caller's
`type`/`trade_id`/`payload`/`signatures` fields only — a caller-supplied
`hash` field is never trusted. -/
theorem chain_c3_hash_preimage (last_block : Option InternalBlock)
    (bd : BlockDict) (t1 t2 : Nat) (db : DbBlock)
    (h : append_block last_block bd t1 t2 = .ok db) :
    ∃ s, pyDumps true true true (full_payload_of bd) = .ok s ∧
      db.hash = sha256Hex (toString db.index ++ db.prev_hash ++ s ++ toString t1) ∧
      db.timestamp = t2 ∧
      db.full_payload = full_payload_of bd := by
  unfold append_block compute_block_hash at h
  dsimp only at h
  cases hd : pyDumps true true true (full_payload_of bd) with
  | error e =>
      rw [hd] at h
      exact absurd h (by simp)
  | ok s =>
      rw [hd] at h
      refine ⟨s, rfl, ?_⟩
      cases last_block with
      | none =>
          dsimp only at h
          cases h
          exact ⟨rfl, rfl, rfl⟩
      | some lb =>
          dsimp only at h
          rw [bne_self_eq_false] at h
          simp only [Bool.false_eq_true, if_false] at h
          cases h
          exact ⟨rfl, rfl, rfl⟩

/-- A second block dict for the C3 witness, with the two clock reads
distinct (5 hashed, 7 stored). -/
def c3w_bd : BlockDict :=
  ⟨"CREATE", "w",
   pyDict [("content_hash", .pystr "cw"), ("seller_pubkey", .pystr "sw"),
           ("description", .pynone), ("price", .pynone)],
   none, pyDict [("seller", .pystr "sigw")]⟩

def c3w_db : DbBlock :=
  match append_block none c3w_bd 5 7 with
  | .ok b => b
  | .error _ => default

set_option maxRecDepth 100000 in
/-- C3 witness: the amended preimage law at a concrete append with
distinct clock reads. -/
theorem chain_c3_witness :
    ∃ s, pyDumps true true true (full_payload_of c3w_bd) = .ok s ∧
      c3w_db.hash =
        sha256Hex (toString c3w_db.index ++ c3w_db.prev_hash ++ s ++ toString 5) ∧
      c3w_db.timestamp = 7 ∧
      c3w_db.full_payload = full_payload_of c3w_bd :=
  chain_c3_hash_preimage none c3w_bd 5 7 c3w_db rfl
